import Mathlib

/-!
Verification development for the company-validation tool.

Shallow embedding of the repository's core record-matching and
confidence-scoring code:

  - src/config.py                 (EMPTY_VALUES)
  - src/utils/validation_utils.py (is_valid_crn, extract_crn_from_row,
                                   extract_company_name_from_row,
                                   extract_fallback_company_name_from_row)
  - src/utils/string_utils.py     (normalize_company_name, is_match)
  - src/utils/data_utils.py       (clean_string_value, parse_date_safely)
  - src/matchers/company_matcher.py (find_match, score_company_match,
                                   find_best_company_match,
                                   extract_company_fields)
  - src/validators/batch_validator.py (process_row, process_all_rows)

Modelling conventions:
  - pandas cells are modelled by `Cell`: a column can be absent from the
    row's index, hold NaN, or hold a string.  (Numeric / datetime typed
    cells are outside the modelled fragment; the code paths under study
    only ever see strings once `str(...)` has been applied.)
  - Python `str.isdigit` / `str.isalpha` / case folding are modelled over
    ASCII strings, which covers every string these claims quantify over.
  - The external Companies House API is a `Registry` value: a pure map
    from company number to an optional company profile, and from a query
    string to a search response.
  - Python exceptions are modelled with `Except PyErr`.
-/

/-- EMPTY_VALUES from src/config.py line 41. -/
def EMPTY_VALUES : List String :=
  ["n/a", "na", "nan", "", "none", "sole trader", "freelancer", "self employed"]

/-! Python string primitives, modelled over the character list of a
`String` with structural recursion (the core library versions are
defined by well-founded recursion on byte positions, which the kernel
cannot evaluate; these definitions compute). -/

/-- Python str.lower() over ASCII strings. -/
def pyLower (s : String) : String :=
  String.mk (s.data.map Char.toLower)

/-- Python str.upper() over ASCII strings. -/
def pyUpper (s : String) : String :=
  String.mk (s.data.map Char.toUpper)

/-- Python str.strip() with no argument: remove leading and trailing
whitespace. -/
def pyStrip (s : String) : String :=
  String.mk (((s.data.dropWhile Char.isWhitespace).reverse.dropWhile Char.isWhitespace).reverse)

/-- Python s.replace(c, "") for a single character c: replacing a
one-character substring by the empty string deletes every occurrence. -/
def pyDeleteChar (c : Char) (s : String) : String :=
  String.mk (s.data.filter (fun a => a != c))

/-- The chained deletions s.replace("\n","").replace("\r","").replace("\t","")
shared by normalize_company_name and clean_string_value. -/
def pyStripTabNlCr (s : String) : String :=
  pyDeleteChar (Char.ofNat 9) (pyDeleteChar (Char.ofNat 13) (pyDeleteChar (Char.ofNat 10) s))

/-- The date separator of the %Y-%m-%d format. -/
def dashChar : Char := Char.ofNat 45

/-- Python s[:n]. -/
def strTake (s : String) (n : Nat) : String :=
  String.mk (s.data.take n)

/-- Python s[n:]. -/
def strDrop (s : String) (n : Nat) : String :=
  String.mk (s.data.drop n)

/-- Helper for pySplitWs: accumulate the current word (reversed). -/
def wordsAux : List Char → List Char → List (List Char)
  | [], acc => if acc.isEmpty then [] else [acc.reverse]
  | c :: cs, acc =>
    if c.isWhitespace then
      if acc.isEmpty then wordsAux cs [] else acc.reverse :: wordsAux cs []
    else wordsAux cs (c :: acc)

/-- Python str.split() with no argument: split on whitespace runs,
never yielding empty tokens. -/
def pySplitWs (s : String) : List String :=
  (wordsAux s.data []).map String.mk

/-- Helper for pySplitChar: split a character list on a separator,
keeping empty segments (Python str.split(sep) semantics). -/
def splitOnCharAux (sep : Char) : List Char → List (List Char)
  | [] => [[]]
  | c :: cs =>
    let r := splitOnCharAux sep cs
    if c == sep then [] :: r
    else
      match r with
      | h :: t => (c :: h) :: t
      | [] => [[c]]

/-- Python str.split(sep) for a one-character separator. -/
def pySplitChar (sep : Char) (s : String) : List String :=
  (splitOnCharAux sep s.data).map String.mk

/-- Python int(s) for a string already checked to be all digits. -/
def digitsToNat (s : String) : Nat :=
  s.data.foldl (fun acc c => acc * 10 + (c.toNat - 48)) 0

/-- Python str.isdigit over ASCII: nonempty and all characters are digits. -/
def isAllDigit (s : String) : Bool :=
  0 < s.length && s.data.all Char.isDigit

/-- Python str.isalpha over ASCII: nonempty and all characters are letters. -/
def isAllAlpha (s : String) : Bool :=
  0 < s.length && s.data.all Char.isAlpha

/-- is_valid_crn from src/utils/validation_utils.py lines 7-33.
The argument is `none` when the raw cell value is NaN (pd.isna). -/
def is_valid_crn : Option String → Bool
  | none => false
  | some crn =>
    let crn_str := pyLower (pyStrip crn)
    if EMPTY_VALUES.contains crn_str then false
    else if crn_str.length == 8 && isAllDigit crn_str then true
    else if (crn_str.length == 8 && isAllAlpha (strTake crn_str 2) && isAllDigit (strDrop crn_str 2))
         || (crn_str.length == 9 && isAllAlpha (strTake crn_str 3) && isAllDigit (strDrop crn_str 3)) then true
    else false

/-- Modelled from the spec (claim C7 wording, spec section 4.1): a raw
identifier is valid iff, after trimming leading/trailing whitespace and
ignoring case, it is exactly 8 digits, or a 2-letter prefix plus 6 digits
(8 chars total), or a 3-letter prefix plus 6 digits (9 chars total).
Used only to compare the spec's contract against `is_valid_crn`. -/
def spec_is_valid_identifier (x : String) : Bool :=
  let s := pyLower (pyStrip x)
  (s.length == 8 && isAllDigit s)
  || (s.length == 8 && isAllAlpha (strTake s 2) && isAllDigit (strDrop s 2))
  || (s.length == 9 && isAllAlpha (strTake s 3) && isAllDigit (strDrop s 3))

/-- One pandas cell: the column may be absent from the row's index, hold
NaN, or hold a string value. -/
inductive Cell
  | absent
  | nan
  | str (s : String)
deriving DecidableEq, Repr

/-- One dataset row, restricted to the columns the matcher reads.
Field names follow src/config.py Columns and the literal column names
used in the source. -/
structure Row where
  /-- Columns.CRN = "Company Registration Number" -/
  crn : Cell := .absent
  /-- Columns.CH_NAME, the long header with embedded newline -/
  chNameLong : Cell := .absent
  /-- literal column "Companies House name" -/
  chName : Cell := .absent
  /-- literal column "Company Name" -/
  companyName : Cell := .absent
  /-- literal column "Date Company Incorporated" -/
  incDate : Cell := .absent
  /-- literal column "Headquarters location" -/
  hqLocation : Cell := .absent
deriving DecidableEq, Repr

/-- extract_crn_from_row from src/utils/validation_utils.py lines 35-57. -/
def extract_crn_from_row (dataset_row : Row) : Option String :=
  match dataset_row.crn with
  | .absent => none
  | .nan => none
  | .str raw =>
    let crn := pyStrip (pyUpper raw)
    if is_valid_crn (some crn) then some (pyStrip (pyUpper crn)) else none

/-- The body of one iteration of the column loop in
extract_company_name_from_row: yields the usable name from one cell. -/
def nameFromCell : Cell → Option String
  | .absent => none
  | .nan => none
  | .str raw =>
    let name := pyStrip raw
    if name.isEmpty then none
    else if EMPTY_VALUES.contains (pyLower name) then none
    else some name

/-- extract_company_name_from_row from src/utils/validation_utils.py
lines 59-95: tries Columns.CH_NAME, then "Companies House name", then
"Company Name", returning the first usable value. -/
def extract_company_name_from_row (dataset_row : Row) : Option String :=
  match nameFromCell dataset_row.chNameLong with
  | some name => some name
  | none =>
    match nameFromCell dataset_row.chName with
    | some name => some name
    | none => nameFromCell dataset_row.companyName

/-- clean_string_value from src/utils/data_utils.py lines 27-48. -/
def clean_string_value : Cell → Option String
  | .absent => none
  | .nan => none
  | .str value =>
    let cleaned := pyStrip (pyStripTabNlCr value)
    if cleaned.isEmpty then none
    else if EMPTY_VALUES.contains (pyLower cleaned) then none
    else some cleaned

/-- extract_fallback_company_name_from_row from
src/utils/validation_utils.py lines 97-108: safe_get_column over the
single column "Company Name" with default "", then empty means none. -/
def extract_fallback_company_name_from_row (dataset_row : Row) : Option String :=
  let result := match dataset_row.companyName with
    | .str s => (clean_string_value (.str s)).getD ""
    | _ => ""
  if result.isEmpty then none else some result

/-- normalize_company_name from src/utils/string_utils.py lines 9-33:
deletes newline, carriage-return and tab characters entirely, then trims.
(The non-string stringification branch is outside the modelled fragment:
every call site passes a string.) -/
def normalize_company_name (company_name : String) : String :=
  pyStrip (pyStripTabNlCr company_name)

/-- is_match from src/utils/string_utils.py lines 35-51: exact,
case-sensitive string equality. -/
def is_match (API_company : String) (company_name : String) : Bool :=
  API_company == company_name

/-- One entry of a Companies House name-search response.  `title`,
`date_of_creation` are optional keys; `address_locality` is `some s`
when "registered_office_address" is present and holds a "locality" key
with string value `s`.  `company_number` is indexed directly by the
matcher and is therefore modelled as always present. -/
structure SearchItem where
  title : Option String := none
  company_number : String := ""
  date_of_creation : Option String := none
  address_locality : Option String := none
deriving DecidableEq, Repr

/-- The JSON body of a search response; `items` is `none` when the
"items" key is absent. -/
structure Payload where
  items : Option (List SearchItem) := none
deriving DecidableEq, Repr

/-- First scan of find_match (src/matchers/company_matcher.py lines
35-41): exact, case-sensitive title equality; items without a "title"
key are skipped. -/
def findMatchPass1 (company_name : String) : List SearchItem → Option SearchItem
  | [] => none
  | result :: rest =>
    match result.title with
    | some API_company =>
      if is_match API_company company_name then some result
      else findMatchPass1 company_name rest
    | none => findMatchPass1 company_name rest

/-- Second scan of find_match (src/matchers/company_matcher.py lines
43-60): case-insensitive equality, or title equal to the normalized
input name, or case-insensitive equality against the normalized input
name.  The title side is never normalized. -/
def findMatchPass2 (company_name : String) : List SearchItem → Option SearchItem
  | [] => none
  | result :: rest =>
    match result.title with
    | some API_company =>
      if is_match (pyLower API_company) (pyLower company_name) then some result
      else if is_match API_company (normalize_company_name company_name) then some result
      else if is_match (pyLower API_company) (pyLower (normalize_company_name company_name)) then some result
      else findMatchPass2 company_name rest
    | none => findMatchPass2 company_name rest

/-- find_match from src/matchers/company_matcher.py lines 15-64.
Returns (matched item or none, needs_update flag). -/
def find_match (search_results : Option Payload) (company_name : String) :
    Option SearchItem × Bool :=
  match search_results with
  | none => (none, true)
  | some p =>
    match p.items with
    | none => (none, true)
    | some items =>
      match findMatchPass1 company_name items with
      | some result => (some result, false)
      | none =>
        match findMatchPass2 company_name items with
        | some result => (some result, true)
        | none => (none, true)

/-- Python `a in b` on strings: `a` is a contiguous substring of `b`. -/
def pyIn (a b : String) : Bool :=
  decide (a.toList <:+: b.toList)

/-- The stopword set common_terms from score_company_match
(src/matchers/company_matcher.py lines 118-120). -/
def common_terms : List String :=
  ["limited", "ltd", "llp", "plc", "inc", "incorporated",
   "corporation", "corp", "company", "co", "group", "holdings",
   "holding", "services", "international", "uk", "the", "and", "of"]


/-- Python set(w for w in s.split() if w.lower() not in common_terms):
the distinct non-stopword tokens of `s`. -/
def wordSet (s : String) : List String :=
  (((pySplitWs s).filter (fun w => !(common_terms.contains (pyLower w))))).eraseDups

/-- Python round(3 * num / den): round half to even on the exact
rational.  (Python evaluates this in double precision; for the small
word counts involved the double-rounding never differs on any input a
claim below depends on.) -/
def bankRound (num den : Nat) : Nat :=
  if den == 0 then 0
  else
    let q := num / den
    let r := num % den
    if 2 * r < den then q
    else if den < 2 * r then q + 1
    else if q % 2 == 0 then q else q + 1

/-- Name-similarity dimension of score_company_match
(src/matchers/company_matcher.py lines 96-134): containment of one
normalized lowered name in the other scores 7 / 4 / 2 by length,
otherwise stopword-filtered word overlap scores round(ratio * 3). -/
def nameScore (search_result : SearchItem) (dataset_row : Row) : Nat :=
  let dataset_name := match dataset_row.chName with
    | .str s => pyLower s
    | _ => ""
  let api_name := pyLower (search_result.title.getD "")
  let api_name_norm := pyLower (normalize_company_name api_name)
  let dataset_name_norm := pyLower (normalize_company_name dataset_name)
  if pyIn api_name_norm dataset_name_norm || pyIn dataset_name_norm api_name_norm then
    if 15 < api_name_norm.length && 15 < dataset_name_norm.length then 7
    else if 10 < api_name_norm.length && 10 < dataset_name_norm.length then 4
    else 2
  else
    let api_words := wordSet api_name_norm
    let dataset_words := wordSet dataset_name_norm
    if !api_words.isEmpty && !dataset_words.isEmpty then
      let common_words := api_words.filter (fun w => dataset_words.contains w)
      if 0 < common_words.length then
        bankRound (3 * common_words.length) (max dataset_words.length api_words.length)
      else 0
    else 0

/-- Incorporation-date dimension of score_company_match
(src/matchers/company_matcher.py lines 136-149): requires the
"Date Company Incorporated" column in the row index and a
"date_of_creation" key in the search result, treats a NaN cell as "",
and compares the raw strings; equality scores 3.  No date parsing. -/
def dateScore (search_result : SearchItem) (dataset_row : Row) : Nat :=
  match dataset_row.incDate, search_result.date_of_creation with
  | .absent, _ => 0
  | _, none => 0
  | c, some api_date =>
    let dataset_date := match c with
      | .str s => s
      | _ => ""
    if api_date == dataset_date then 3 else 0

/-- Location dimension of score_company_match
(src/matchers/company_matcher.py lines 151-159): the candidate's
lowered locality, when truthy, being a substring of the row's lowered
headquarters location scores 2. -/
def locScore (search_result : SearchItem) (dataset_row : Row) : Nat :=
  match dataset_row.hqLocation with
  | .str hq =>
    let dataset_location := pyLower hq
    match search_result.address_locality with
    | some l =>
      let locality := pyLower l
      if !locality.isEmpty && pyIn locality dataset_location then 2 else 0
    | none => 0
  | _ => 0

/-- score_company_match from src/matchers/company_matcher.py lines
66-167: the three dimensions added, floored at 1, capped at 10. -/
def score_company_match (search_result : SearchItem) (dataset_row : Row) : Nat :=
  min 10 (max 1 (nameScore search_result dataset_row
    + dateScore search_result dataset_row
    + locScore search_result dataset_row))

/-- Registered-office address of a company profile, restricted to the
keys read by extract_company_fields. -/
structure Address where
  address_line_1 : Option String := none
  address_line_2 : Option String := none
  locality : Option String := none
  region : Option String := none
  postal_code : Option String := none
  country : Option String := none
deriving DecidableEq, Repr

/-- The JSON body returned by get_company_data, restricted to the keys
read by the matcher and extract_company_fields. -/
structure CompanyProfile where
  company_name : Option String := none
  company_number : Option String := none
  company_status : Option String := none
  date_of_creation : Option String := none
  date_of_dissolution : Option String := none
  company_type : Option String := none
  sic_codes : List String := []
  registered_office_address : Option Address := none
deriving DecidableEq, Repr

/-- The standardized dict built by extract_company_fields. -/
structure CompanyFields where
  name : String
  crn : String
  status : String
  inc_date : String
  dissolution_date : String
  ctype : String
  sic_codes : List String
  address : String
  locality : String
deriving DecidableEq, Repr

/-- extract_company_fields from src/matchers/company_matcher.py lines
248-289.  The address string joins the truthy address parts with ", ".
(The source's dict key "type" is `ctype` here: `type` is reserved.) -/
def extract_company_fields (company_data : CompanyProfile) : CompanyFields :=
  let base : CompanyFields :=
    { name := company_data.company_name.getD ""
      crn := company_data.company_number.getD ""
      status := company_data.company_status.getD ""
      inc_date := company_data.date_of_creation.getD ""
      dissolution_date := company_data.date_of_dissolution.getD ""
      ctype := company_data.company_type.getD ""
      sic_codes := company_data.sic_codes
      address := ""
      locality := "" }
  match company_data.registered_office_address with
  | some address =>
    let address_parts :=
      [address.address_line_1, address.address_line_2, address.locality,
       address.region, address.postal_code, address.country].filterMap
        (fun f => match f with
          | some v => if v.isEmpty then none else some v
          | none => none)
    { base with
      address := String.intercalate ", " address_parts
      locality := address.locality.getD "" }
  | none => base

/-- The external Companies House API as a pure environment:
get_company_data as a map from company number to optional profile, and
search_company_by_name as a map from query to (response body, match
count).  A transport failure or non-200 status is `(none, 0)`; the
count is the response's total_results field. -/
structure Registry where
  getCompany : String → Option CompanyProfile
  searchByName : String → Option Payload × Nat

/-- The CRN tier of find_best_company_match (src/matchers/
company_matcher.py lines 186-194): extract a valid CRN and look the
company up directly; `none` means the tier fell through. -/
def crnLookup (reg : Registry) (dataset_row : Row) : Option CompanyProfile :=
  match extract_crn_from_row dataset_row with
  | some crn => reg.getCompany crn
  | none => none

/-- The list the scoring loop iterates over:
search_results.get("items", []) guarded by `search_results is not None`
(src/matchers/company_matcher.py lines 209-211). -/
def itemsOf : Option Payload → List SearchItem
  | none => []
  | some p => p.items.getD []

/-- The best-score accumulation loop of find_best_company_match
(src/matchers/company_matcher.py lines 206-218): track the maximum
score and, in order, every item tied at that maximum. -/
def scoreLoop (dataset_row : Row) :
    List SearchItem → Nat → List SearchItem → Nat × List SearchItem
  | [], best_score, best_company => (best_score, best_company)
  | result :: rest, best_score, best_company =>
    let score := score_company_match result dataset_row
    if score == best_score then
      scoreLoop dataset_row rest best_score (best_company ++ [result])
    else if best_score < score then
      scoreLoop dataset_row rest score [result]
    else
      scoreLoop dataset_row rest best_score best_company

/-- The loop above started from best_score = 0, best_company = []. -/
def bestOf (dataset_row : Row) (items : List SearchItem) : Nat × List SearchItem :=
  scoreLoop dataset_row items 0 []

/-- The first component of a find_best_company_match return value. -/
inductive MatchData
  | none
  | profile (p : CompanyProfile)
  | fields (f : CompanyFields)
  | many (fs : List CompanyFields)
deriving DecidableEq, Repr

/-- One Python value inside a returned tuple: the matcher's tuples mix
company data, strings and ints, and the spec additionally expects a
boolean review flag. -/
inductive PyVal
  | data (d : MatchData)
  | str (s : String)
  | int (n : Nat)
  | bool (b : Bool)
deriving DecidableEq, Repr

/-- Python exceptions reachable in the modelled fragment. -/
inductive PyErr
  | valueError
  | attributeError
deriving DecidableEq, Repr

deriving instance DecidableEq for Except

/-- find_best_company_match from src/matchers/company_matcher.py lines
171-245.  Every Python return statement is a 3-element tuple, modelled
as a 3-element `List PyVal`.  In the exact-name branch the source calls
extract_company_fields(get_company_data(...)) unguarded, so a failed
detail lookup there raises AttributeError on None. -/
def find_best_company_match (reg : Registry) (dataset_row : Row) :
    Except PyErr (List PyVal) :=
  match crnLookup reg dataset_row with
  | some company_data =>
    .ok [.data (.profile company_data), .str "crn_match", .int 10]
  | none =>
    match extract_company_name_from_row dataset_row with
    | none => .ok [.data .none, .str "no_match", .int 0]
    | some company_name =>
      match reg.searchByName company_name with
      | (search_results, match_count) =>
        if 0 < match_count then
          match (find_match search_results company_name).1 with
          | some matched_company =>
            match reg.getCompany matched_company.company_number with
            | some full_company_data =>
              .ok [.data (.fields (extract_company_fields full_company_data)),
                   .str "name_match", .int 10]
            | none => .error .attributeError
          | none =>
            match bestOf dataset_row (itemsOf search_results) with
            | (best_score, best_company) =>
              match best_company with
              | [only] =>
                let company_data : MatchData :=
                  match reg.getCompany only.company_number with
                  | some full_data => .fields (extract_company_fields full_data)
                  | none => .none
                .ok [.data company_data, .str "best_name_match", .int best_score]
              | [] => .ok [.data .none, .str "no_match", .int 0]
              | c1 :: c2 :: cs =>
                if 6 < best_score then
                  .ok [.data (.many ((c1 :: c2 :: cs).filterMap
                        (fun comp => (reg.getCompany comp.company_number).map
                          extract_company_fields))),
                       .str "multiple_best_name_matches", .int best_score]
                else
                  .ok [.data .none, .str "multiple_best_name_matches_low_score",
                       .int best_score]
        else .ok [.data .none, .str "no_match", .int 0]

/-- Days in a month, as validated by datetime inside strptime. -/
def daysInMonth (y m : Nat) : Nat :=
  if m == 2 then
    if (y % 4 == 0 && y % 100 != 0) || y % 400 == 0 then 29 else 28
  else if m == 4 || m == 6 || m == 9 || m == 11 then 30 else 31

/-- Left-pad a number with zeros, as date.isoformat does. -/
def padZero (width n : Nat) : String :=
  let s := toString n
  if s.length < width then (List.replicate (width - s.length) '0').asString ++ s
  else s

/-- datetime.strptime(s, "%Y-%m-%d"): exactly 4 digits for the year,
1-2 digits for month and day, with calendar validation. -/
def parseYmd (s : String) : Option (Nat × Nat × Nat) :=
  match pySplitChar dashChar s with
  | [ys, ms, ds] =>
    if ys.length == 4 && isAllDigit ys
       && 1 ≤ ms.length && ms.length ≤ 2 && isAllDigit ms
       && 1 ≤ ds.length && ds.length ≤ 2 && isAllDigit ds then
      let y := digitsToNat ys
      let m := digitsToNat ms
      let d := digitsToNat ds
      if 1 ≤ y && 1 ≤ m && m ≤ 12 && 1 ≤ d && d ≤ daysInMonth y m then
        some (y, m, d)
      else none
    else none
  | _ => none

/-- parse_date_safely from src/utils/data_utils.py lines 75-96,
restricted to NaN-or-string date cells (`none` is NaN; cells that are
datetime objects take the hasattr branch and are outside the modelled
fragment).  Returns the ISO YYYY-MM-DD string or `none`. -/
def parse_date_safely : Option String → Option String
  | none => none
  | some s =>
    (parseYmd s).map (fun t =>
      padZero 4 t.1 ++ "-" ++ padZero 2 t.2.1 ++ "-" ++ padZero 2 t.2.2)

/-- The tracking dict built at the end of process_row
(src/validators/batch_validator.py lines 82-88).  The timestamp field
(datetime.now) is omitted: it is nondeterministic and the dict is never
actually reached, because the unpacking on line 49 fails first. -/
structure TrackingRecord where
  row_index : Nat
  match_type : PyVal
  confidence_score : PyVal
  needs_manual_review : PyVal
deriving DecidableEq, Repr

/-- Python tuple unpacking `a, b, c, d = t`: succeeds only when the
tuple has exactly 4 elements, otherwise raises ValueError. -/
def unpack4 (t : List PyVal) : Except PyErr (PyVal × PyVal × PyVal × PyVal) :=
  match t with
  | [a, b, c, d] => .ok (a, b, c, d)
  | _ => .error .valueError

/-- process_row from src/validators/batch_validator.py lines 40-89:
calls the matcher and unpacks its result into four variables on line
49.  The DataFrame write-backs all happen after that line, so they are
not reachable when the unpacking raises. -/
def process_row (reg : Registry) (idx : Nat) (dataset_row : Row) :
    Except PyErr TrackingRecord := do
  let t ← find_best_company_match reg dataset_row
  let q ← unpack4 t
  pure { row_index := idx
         match_type := q.2.1
         confidence_score := q.2.2.1
         needs_manual_review := q.2.2.2 }

/-- The for-loop of process_all_rows (src/validators/batch_validator.py
lines 99-103): process each (index, row) in order, appending the
tracking record; there is no try/except, so the first exception
propagates out of the loop. -/
def runRows (reg : Registry) : List (Nat × Row) → Except PyErr (List TrackingRecord)
  | [] => .ok []
  | (idx, r) :: rest => do
    let trackRec ← process_row reg idx r
    let others ← runRows reg rest
    pure (trackRec :: others)

/-- process_all_rows from src/validators/batch_validator.py lines
91-105.  `indices = list(df.index[:limit]) if limit else list(df.index)`:
a limit of Python-falsy 0 (or None) selects every row. -/
def process_all_rows (reg : Registry) (rows : List Row) (limit : Option Nat) :
    Except PyErr (List TrackingRecord) :=
  let indexed := rows.enum
  let indices := match limit with
    | none => indexed
    | some n => if n == 0 then indexed else indexed.take n
  runRows reg indices

/-! Concrete fixtures used by the witnesses and counterexamples below.
Each claim has its own fixtures. -/

/-- C1 fixture row: a valid 2-letter-prefix CRN. -/
def rowFixC1 : Row := { crn := .str "SC123456" }

/-- C1 fixture profile returned by the registry for that CRN. -/
def profFixC1 : CompanyProfile :=
  { company_name := some "Scot Ltd", company_number := some "SC123456" }

/-- C1 fixture registry: direct lookup succeeds, name search is dead. -/
def regFixC1 : Registry :=
  ⟨fun n => if n == "SC123456" then some profFixC1 else none,
   fun _ => (none, 0)⟩

/-- C2 fixture row: primary name "Zeta Prime", distinct fallback
"Company Name" column "Omega Corp". -/
def rowFixC2 : Row :=
  { chNameLong := .str "Zeta Prime", companyName := .str "Omega Corp" }

/-- C2 fixture search item exactly titled with the fallback name. -/
def itemFixC2 : SearchItem := { title := some "Omega Corp", company_number := "777" }

/-- C2 fixture registry: the primary-name search returns an empty item
list, while a search for the fallback name would exact-match. -/
def regFixC2 : Registry :=
  ⟨fun n => if n == "777" then some { company_number := some "777" } else none,
   fun q => if q == "Zeta Prime" then (some ⟨some []⟩, 1)
            else if q == "Omega Corp" then (some ⟨some [itemFixC2]⟩, 1)
            else (none, 0)⟩

/-- C2 fixture registry variant: identical lookups and identical answer
for the primary-name query, but the fallback-name query now fails. -/
def regFixC2alt : Registry :=
  { getCompany := regFixC2.getCompany
    searchByName := fun q => if q == "Zeta Prime" then (some ⟨some []⟩, 1) else (none, 0) }

/-- C3 fixture row. -/
def rowFixC3 : Row := { chNameLong := .str "Gamma Widgets" }

/-- C3 fixture candidate 1. -/
def itemFixC3a : SearchItem := { title := some "Delta One", company_number := "D1" }

/-- C3 fixture candidate 2, tied with candidate 1 at score 2. -/
def itemFixC3b : SearchItem := { title := some "Delta Two", company_number := "D2" }

/-- C3 fixture registry: the search returns the two tied candidates. -/
def regFixC3 : Registry :=
  ⟨fun _ => none,
   fun q => if q == "Gamma Widgets" then (some ⟨some [itemFixC3a, itemFixC3b]⟩, 2)
            else (none, 0)⟩

/-- C4 fixture search item: the spec scenario's title with an embedded
newline. -/
def itemFixC4 : SearchItem :=
  { title := some "Acme\nEnterprises Ltd", company_number := "AC1" }

/-- C4 fixture row carrying the spec scenario's input name. -/
def rowFixC4 : Row := { chNameLong := .str "Acme Enterprises Ltd" }

/-- C4 fixture registry serving the newline-titled item for the
scenario query. -/
def regFixC4 : Registry :=
  ⟨fun _ => none,
   fun q => if q == "Acme Enterprises Ltd" then (some ⟨some [itemFixC4]⟩, 1)
            else (none, 0)⟩

/-- C5 counterexample fixture candidate: long name and matching date,
no locality. -/
def itemFixC5 : SearchItem :=
  { title := some "Grand Universal Holdings International"
    company_number := "GU1"
    date_of_creation := some "2020-01-01" }

/-- C5 counterexample fixture row matching that candidate's name and
date but with no headquarters location. -/
def rowFixC5 : Row :=
  { chName := .str "Grand Universal Holdings International"
    incDate := .str "2020-01-01" }

/-- C5 amended-theorem fixture candidate (distinct from the
counterexample's). -/
def itemFixC5b : SearchItem :=
  { title := some "Pacific Continental Engineering Group"
    company_number := "PC1"
    date_of_creation := some "1999-12-31" }

/-- C5 amended-theorem fixture row. -/
def rowFixC5b : Row :=
  { chName := .str "Pacific Continental Engineering Group"
    incDate := .str "1999-12-31" }

/-- C8 fixture registry: every call fails, which is a normal fallthrough
path for the matcher. -/
def regFixC8 : Registry := ⟨fun _ => none, fun _ => (none, 0)⟩

/-- C8 fixture row: an entirely empty record. -/
def rowFixC8 : Row := {}

/-- C9 fixture registry. -/
def regFixC9 : Registry := ⟨fun _ => none, fun _ => (none, 0)⟩

/-- C10 fixture row. -/
def rowFixC10 : Row := { chNameLong := .str "Alpha" }

/-- C10 fixture candidate: not an exact match, so it is scored. -/
def itemFixC10 : SearchItem := { title := some "Beta", company_number := "B1" }

/-- C10 fixture registry: the name search returns one scored candidate
whose detail lookup then fails. -/
def regFixC10 : Registry :=
  ⟨fun _ => none,
   fun q => if q == "Alpha" then (some ⟨some [itemFixC10]⟩, 1) else (none, 0)⟩

/-- The scorer's final clamp guarantees a floor of 1. -/
theorem score_company_match_pos (search_result : SearchItem) (dataset_row : Row) :
    1 ≤ score_company_match search_result dataset_row := by
  unfold score_company_match
  omega

/-- The scorer's final clamp guarantees a cap of 10. -/
theorem score_company_match_le_ten (search_result : SearchItem) (dataset_row : Row) :
    score_company_match search_result dataset_row ≤ 10 := by
  unfold score_company_match
  omega

/-- Invariant of the best-score loop: once the accumulator is nonempty
the tracked best score is at least 1, because every computed score is. -/
theorem scoreLoop_pos (dataset_row : Row) :
    ∀ (items : List SearchItem) (bs : Nat) (acc : List SearchItem),
      (acc ≠ [] → 1 ≤ bs) →
      (scoreLoop dataset_row items bs acc).2 ≠ [] →
      1 ≤ (scoreLoop dataset_row items bs acc).1 := by
  intro items
  induction items with
  | nil =>
    intro bs acc hpre hne
    simp only [scoreLoop] at hne ⊢
    exact hpre hne
  | cons r rest ih =>
    intro bs acc hpre hne
    simp only [scoreLoop] at hne ⊢
    have hsc : 1 ≤ score_company_match r dataset_row := score_company_match_pos r dataset_row
    by_cases h1 : (score_company_match r dataset_row == bs) = true
    · rw [if_pos h1] at hne ⊢
      exact ih _ _ (fun _ => by have := eq_of_beq h1; omega) hne
    · rw [if_neg h1] at hne ⊢
      by_cases h2 : bs < score_company_match r dataset_row
      · rw [if_pos h2] at hne ⊢
        exact ih _ _ (fun _ => by omega) hne
      · rw [if_neg h2] at hne ⊢
        exact ih _ _ hpre hne

/-- A nonempty tied-best set implies a best score of at least 1. -/
theorem bestOf_pos (dataset_row : Row) (items : List SearchItem)
    (h : (bestOf dataset_row items).2 ≠ []) : 1 ≤ (bestOf dataset_row items).1 :=
  scoreLoop_pos dataset_row items 0 [] (fun hc => absurd rfl hc) h

/-- Every successful return of find_best_company_match is a 3-element
tuple: the source's six return statements are all 3-tuples. -/
theorem find_best_company_match_ok_length (reg : Registry) (dataset_row : Row)
    (t : List PyVal) (h : find_best_company_match reg dataset_row = .ok t) :
    t.length = 3 := by
  unfold find_best_company_match at h
  repeat' split at h
  all_goals cases h
  all_goals rfl

/-- Unpacking a 3-element tuple into four variables raises ValueError. -/
theorem unpack4_of_length_three (t : List PyVal) (h : t.length = 3) :
    unpack4 t = .error .valueError := by
  rcases t with _ | ⟨a, _ | ⟨b, _ | ⟨c, _ | ⟨d, rest⟩⟩⟩⟩ <;> simp_all [unpack4]

/-- process_row always raises: either the matcher's own AttributeError
propagates, or the 4-variable unpacking of its 3-tuple raises
ValueError. -/
theorem process_row_error (reg : Registry) (idx : Nat) (dataset_row : Row) :
    process_row reg idx dataset_row = .error .valueError ∨
    process_row reg idx dataset_row = .error .attributeError := by
  cases h : find_best_company_match reg dataset_row with
  | error e =>
    cases e
    · left
      rw [process_row, h]
      rfl
    · right
      rw [process_row, h]
      rfl
  | ok t =>
    left
    have hl := find_best_company_match_ok_length reg dataset_row t h
    have hu := unpack4_of_length_three t hl
    rw [process_row, h]
    show (fun a => ({ row_index := idx, match_type := a.2.1, confidence_score := a.2.2.1, needs_manual_review := a.2.2.2 } : TrackingRecord)) <$> unpack4 t = Except.error PyErr.valueError
    rw [hu]
    rfl

/-- A failing first record makes the whole loop fail with that error. -/
theorem runRows_cons_error (reg : Registry) (idx : Nat) (r : Row)
    (rest : List (Nat × Row)) (e : PyErr) (h : process_row reg idx r = .error e) :
    runRows reg ((idx, r) :: rest) = .error e := by
  rw [runRows, h]
  rfl

/-- process_all_rows on a nonempty batch always starts with record 0. -/
theorem process_all_rows_head (reg : Registry) (r0 : Row) (rest : List Row)
    (limit : Option Nat) :
    ∃ tail, process_all_rows reg (r0 :: rest) limit = runRows reg ((0, r0) :: tail) := by
  cases limit with
  | none => exact ⟨rest.enumFrom 1, rfl⟩
  | some n =>
    cases n with
    | zero => exact ⟨rest.enumFrom 1, rfl⟩
    | succ m => exact ⟨(rest.enumFrom 1).take m, rfl⟩


/-- C7: the Identifier Validator returns true exactly for the strings
that, after stripping leading/trailing whitespace and ignoring case, are
8 digits, or a 2-letter prefix plus 6 digits, or a 3-letter prefix plus
6 digits; and it returns false (an answer, not an error) for every
configured placeholder.  Confirmed: the EMPTY_VALUES early exit rejects
nothing that the shape test would accept, so is_valid_crn agrees with
the spec contract on every string. -/
theorem c7_identifier_validator_contract :
    (∀ s : String, is_valid_crn (some s) = spec_is_valid_identifier s) ∧
    (EMPTY_VALUES.all fun v => !(is_valid_crn (some v))) = true := by
  constructor
  · intro s
    simp only [is_valid_crn, spec_is_valid_identifier]
    by_cases hc : EMPTY_VALUES.contains (pyLower (pyStrip s)) = true
    · rw [if_pos hc]
      have hm : pyLower (pyStrip s) ∈ EMPTY_VALUES := by
        simpa [List.contains] using hc
      simp only [EMPTY_VALUES, List.mem_cons, List.not_mem_nil, or_false] at hm
      rcases hm with h | h | h | h | h | h | h | h <;> rw [h] <;> decide
    · rw [if_neg hc]
      split
      next h1 => simp [h1]
      next h1 =>
        split
        next h2 => simp_all [Bool.or_eq_true]; tauto
        next h2 => simp_all [Bool.or_eq_true]
  · decide

/-- C1 counterexample: for a record whose CRN validates and resolves,
find_best_company_match returns the 3-tuple (raw company data,
"crn_match", 10) — the spec's `id_match` tag is the code's "crn_match" —
and in particular does not return the claimed outcome carrying a
needs_manual_review = false component: no return path of the matcher
produces a review flag at all. -/
theorem c1_counterexample :
    find_best_company_match regFixC1 rowFixC1 =
      .ok [.data (.profile profFixC1), .str "crn_match", .int 10] ∧
    find_best_company_match regFixC1 rowFixC1 ≠
      .ok [.data (.profile profFixC1), .str "crn_match", .int 10, .bool false] := by
  constructor
  · decide
  · decide

/-- C1 amended: for every record whose claimed identifier passes the
validator and whose registry lookup by that identifier returns company
data, find_best_company_match returns exactly the 3-tuple
(company data, "crn_match", 10) — terminal and authoritative, with no
needs_manual_review component — and the outcome is independent of the
name-search interface, so no name-based registry search can influence
it. -/
theorem c1_amended_crn_match_terminal (reg : Registry) (dataset_row : Row)
    (crn : String) (cd : CompanyProfile)
    (h1 : extract_crn_from_row dataset_row = some crn)
    (h2 : reg.getCompany crn = some cd) :
    find_best_company_match reg dataset_row =
      .ok [.data (.profile cd), .str "crn_match", .int 10] ∧
    ∀ s', find_best_company_match { reg with searchByName := s' } dataset_row =
      .ok [.data (.profile cd), .str "crn_match", .int 10] := by
  have hc : crnLookup reg dataset_row = some cd := by
    simp [crnLookup, h1, h2]
  refine ⟨by simp [find_best_company_match, hc], fun s' => ?_⟩
  have hc' : crnLookup { reg with searchByName := s' } dataset_row = some cd := by
    simp [crnLookup, h1, h2]
  simp [find_best_company_match, hc']

/-- C1 witness: the amended theorem applied at the concrete fixture. -/
theorem c1_amended_crn_match_terminal_witness :
    find_best_company_match regFixC1 rowFixC1 =
      .ok [.data (.profile profFixC1), .str "crn_match", .int 10] :=
  (c1_amended_crn_match_terminal regFixC1 rowFixC1 "SC123456" profFixC1
    (by decide) (by decide)).1

/-- C2 counterexample: a record whose primary-name tier finds nothing
usable and which carries a distinct fallback "Company Name" that the
registry would exact-match.  The claim requires a fallback-name tier
(exact match, confidence at most 8, mandatory review); the code instead
returns (None, "no_match", 0) — it never searches the fallback name. -/
theorem c2_counterexample :
    find_best_company_match regFixC2 rowFixC2 =
      .ok [.data .none, .str "no_match", .int 0] ∧
    extract_fallback_company_name_from_row rowFixC2 = some "Omega Corp" ∧
    ("Omega Corp" : String) ≠ "Zeta Prime" ∧
    (find_match (regFixC2.searchByName "Omega Corp").1 "Omega Corp").1 = some itemFixC2 := by
  refine ⟨by decide, by decide, by decide, by decide⟩

/-- C2 amended: find_best_company_match has no fallback-name tier.  Its
outcome depends on the search interface only at the primary extracted
name: two registries with the same direct-lookup map that agree on the
primary name's query — but may disagree arbitrarily on every other
query, including the fallback name's — produce identical outcomes. -/
theorem c2_amended_no_fallback_tier (reg reg' : Registry) (dataset_row : Row)
    (name : String)
    (hname : extract_company_name_from_row dataset_row = some name)
    (hg : reg.getCompany = reg'.getCompany)
    (hs : reg.searchByName name = reg'.searchByName name) :
    find_best_company_match reg dataset_row = find_best_company_match reg' dataset_row := by
  simp only [find_best_company_match, crnLookup, hname, hg, hs]

/-- C2 witness: the amended theorem applied at the fixtures, where the
two registries differ precisely on the fallback name's query. -/
theorem c2_amended_no_fallback_tier_witness :
    find_best_company_match regFixC2 rowFixC2 =
      find_best_company_match regFixC2alt rowFixC2 :=
  c2_amended_no_fallback_tier regFixC2 regFixC2alt rowFixC2 "Zeta Prime"
    (by decide) rfl (by decide)

/-- C3 counterexample: a name search with two candidates tied at score
2 (no exact match).  The claim requires the low-score outcome to carry
needs_manual_review = true; the code returns the 3-tuple
(None, "multiple_best_name_matches_low_score", 2) with no review flag
component on any return path. -/
theorem c3_counterexample :
    find_best_company_match regFixC3 rowFixC3 =
      .ok [.data .none, .str "multiple_best_name_matches_low_score", .int 2] ∧
    find_best_company_match regFixC3 rowFixC3 ≠
      .ok [.data .none, .str "multiple_best_name_matches_low_score", .int 2, .bool true] := by
  refine ⟨by decide, by decide⟩

/-- C3 amended: with more than one candidate tied at the top score, a
tied score above 6 returns the tag "multiple_best_name_matches"
together with the extracted detail data of each tied candidate whose
detail lookup succeeds, and a tied score of at most 6 returns
(None, "multiple_best_name_matches_low_score", score); both are
3-tuples without a needs_manual_review component. -/
theorem c3_amended_tied_candidates (reg : Registry) (dataset_row : Row)
    (name : String) (sr : Option Payload) (mc best : Nat)
    (c1 c2 : SearchItem) (cs : List SearchItem)
    (hcrn : crnLookup reg dataset_row = none)
    (hname : extract_company_name_from_row dataset_row = some name)
    (hsearch : reg.searchByName name = (sr, mc))
    (hmc : 0 < mc)
    (hfm : (find_match sr name).1 = none)
    (hbest : bestOf dataset_row (itemsOf sr) = (best, c1 :: c2 :: cs)) :
    find_best_company_match reg dataset_row =
      (if 6 < best then
        .ok [.data (.many ((c1 :: c2 :: cs).filterMap
              (fun comp => (reg.getCompany comp.company_number).map extract_company_fields))),
             .str "multiple_best_name_matches", .int best]
      else
        .ok [.data .none, .str "multiple_best_name_matches_low_score", .int best]) := by
  simp only [find_best_company_match, hcrn, hname, hsearch, hfm, hbest, if_pos hmc]

/-- C3 witness: the amended theorem applied at the concrete tie of two
candidates at score 2, which is below the threshold. -/
theorem c3_amended_tied_candidates_witness :
    find_best_company_match regFixC3 rowFixC3 =
      .ok [.data .none, .str "multiple_best_name_matches_low_score", .int 2] := by
  have h := c3_amended_tied_candidates regFixC3 rowFixC3 "Gamma Widgets"
    (some ⟨some [itemFixC3a, itemFixC3b]⟩) 2 2 itemFixC3a itemFixC3b []
    (by decide) (by decide) (by decide) (by decide) (by decide) (by decide)
  simpa using h

/-- C4 counterexample: the spec scenario.  The input name
"Acme Enterprises Ltd" does not resolve against a result titled
"Acme(newline)Enterprises Ltd": normalization deletes the newline
outright (producing "AcmeEnterprises Ltd", not the spaced form), it is
only ever applied to the input side, and so the exact-match scan finds
nothing (needs_update true) and the record drops to scoring, where the
resolver returns best_name_match with confidence 2, not a confidence-10
normalized match.  A title whose normalization equals the input
(API-side normalization) is likewise not accepted. -/
theorem c4_counterexample :
    find_match (some ⟨some [itemFixC4]⟩) "Acme Enterprises Ltd" = (none, true) ∧
    normalize_company_name "Acme\nEnterprises Ltd" = "AcmeEnterprises Ltd" ∧
    find_best_company_match regFixC4 rowFixC4 =
      .ok [.data .none, .str "best_name_match", .int 2] ∧
    find_match (some ⟨some [⟨some "AcmeX\nLtd", "A2", none, none⟩]⟩) "AcmeXLtd" = (none, true) ∧
    normalize_company_name "AcmeX\nLtd" = "AcmeXLtd" := by
  refine ⟨by decide, by decide, by decide, by decide, by decide⟩

/-- C4 amended: on a single-result search, the second pass accepts a
candidate exactly when the raw titles are case-insensitively equal, or
the raw title equals the normalized input name, or the lowered title
equals the lowered normalized input name.  Normalization is applied to
the input side only, and deletes (not respaces) embedded newlines, so
the claimed newline scenario falls through to scoring instead. -/
theorem c4_amended_second_pass (t num n : String) :
    find_match (some ⟨some [⟨some t, num, none, none⟩]⟩) n =
      (if is_match t n then (some ⟨some t, num, none, none⟩, false)
       else if is_match (pyLower t) (pyLower n)
            || is_match t (normalize_company_name n)
            || is_match (pyLower t) (pyLower (normalize_company_name n))
       then (some ⟨some t, num, none, none⟩, true)
       else (none, true)) := by
  simp only [find_match, findMatchPass1, findMatchPass2]
  by_cases h1 : is_match t n = true
  · simp [h1]
  · simp only [h1, Bool.false_eq_true, if_false, if_neg]
    by_cases h2 : is_match (pyLower t) (pyLower n) = true
    · simp [h1, h2]
    · by_cases h3 : is_match t (normalize_company_name n) = true
      · simp [h1, h2, h3]
      · by_cases h4 : is_match (pyLower t) (pyLower (normalize_company_name n)) = true
        · simp [h1, h2, h3, h4]
        · simp [h1, h2, h3, h4]

/-- C5 counterexample: scoring alone reaches 10 without all three
dimensions maxing out.  This candidate/row pair scores the full 10 while
the location dimension contributes 0 (its maximum is 2): name
containment (7) plus date equality (3) already sum to 10. -/
theorem c5_counterexample :
    score_company_match itemFixC5 rowFixC5 = 10 ∧
    locScore itemFixC5 rowFixC5 = 0 := by
  refine ⟨by decide, by decide⟩

/-- C5 amended: the Candidate Scorer always returns an integer in the
closed interval [1,10] — never 0, never more than 10, floor 1 once it
runs — and scoring alone reaches 10 whenever the dimension sum reaches
10; name 7 plus date 3 suffices, with the location dimension at 0, so
maxing all three dimensions (7+3+2=12, clamped) is one way but not the
only way. -/
theorem c5_amended_score_range :
    (∀ (search_result : SearchItem) (dataset_row : Row),
      1 ≤ score_company_match search_result dataset_row ∧
      score_company_match search_result dataset_row ≤ 10) ∧
    (nameScore itemFixC5b rowFixC5b = 7 ∧ dateScore itemFixC5b rowFixC5b = 3 ∧
     locScore itemFixC5b rowFixC5b = 0 ∧ score_company_match itemFixC5b rowFixC5b = 10) := by
  constructor
  · intro search_result dataset_row
    unfold score_company_match
    omega
  · refine ⟨by decide, by decide, by decide, by decide⟩

/-- C6 counterexample: the date dimension ignores parse_date_safely.
Dates "2020-1-1" (row) and "2020-01-01" (candidate) are both parseable
and equal as ISO YYYY-MM-DD after safe parsing, yet contribute 0; while
the unparseable pair "garbage"/"garbage" contributes 3.  (The dimension
is total — it never raises — which is the one part of the claim that
holds.) -/
theorem c6_counterexample :
    parse_date_safely (some "2020-1-1") = some "2020-01-01" ∧
    parse_date_safely (some "2020-01-01") = some "2020-01-01" ∧
    dateScore { date_of_creation := some "2020-01-01" } { incDate := .str "2020-1-1" } = 0 ∧
    parse_date_safely (some "garbage") = none ∧
    dateScore { date_of_creation := some "garbage" } { incDate := .str "garbage" } = 3 := by
  refine ⟨by decide, by decide, by decide, by decide, by decide⟩

/-- C6 amended: the incorporation-date dimension contributes exactly 3
when the candidate carries a date_of_creation value and the row's date
column is present with a raw string equal to it (a NaN cell comparing
as the empty string), and contributes 0 otherwise; the comparison is on
raw strings with no date parsing, and the dimension is a total function
— it never raises. -/
theorem c6_amended_date_dimension (search_result : SearchItem) (dataset_row : Row) :
    (dateScore search_result dataset_row = 0 ∨ dateScore search_result dataset_row = 3) ∧
    (dateScore search_result dataset_row = 3 ↔
      ((∃ s, dataset_row.incDate = Cell.str s ∧ search_result.date_of_creation = some s) ∨
       (dataset_row.incDate = Cell.nan ∧ search_result.date_of_creation = some ""))) := by
  cases hinc : dataset_row.incDate <;> cases hdc : search_result.date_of_creation <;>
    simp only [dateScore, hinc, hdc] <;> try simp
  · rename_i api
    by_cases h : api = ""
    · simp [h]
    · simp [h]
  · rename_i s' api
    by_cases h : api = s'
    · simp [h]
    · simp [h]

/-- C8 counterexample: a 2-record batch.  The claim requires the first
record's exception to be caught, recorded as an error outcome, and the
batch to complete with one outcome per record; instead
process_all_rows propagates the first record's ValueError (the
4-variable unpacking of the matcher's 3-tuple) and aborts, producing no
outcome list at all. -/
theorem c8_counterexample :
    process_all_rows regFixC8 [rowFixC8, rowFixC8] none = .error .valueError := by
  decide

/-- C8 amended: process_all_rows has no per-record exception handling;
the exception raised while processing the first record of any nonempty
batch propagates and aborts the remaining records, so a nonempty batch
never yields an outcome list. -/
theorem c8_amended_batch_aborts (reg : Registry) (rows : List Row)
    (limit : Option Nat) (hne : rows ≠ []) :
    ∃ e, process_all_rows reg rows limit = .error e := by
  rcases rows with _ | ⟨r0, rest⟩
  · exact absurd rfl hne
  obtain ⟨tail, hrw⟩ := process_all_rows_head reg r0 rest limit
  rcases process_row_error reg 0 r0 with h | h
  · exact ⟨.valueError, by rw [hrw, runRows_cons_error reg 0 r0 tail _ h]⟩
  · exact ⟨.attributeError, by rw [hrw, runRows_cons_error reg 0 r0 tail _ h]⟩

/-- C8 witness: the amended theorem applied at a concrete 1-record
batch. -/
theorem c8_amended_batch_aborts_witness :
    ∃ e, process_all_rows regFixC8 [rowFixC8] none = .error e :=
  c8_amended_batch_aborts regFixC8 [rowFixC8] none (by decide)

/-- C9: find_best_company_match returns a 3-tuple on every successful
return path, with no needs_manual_review component, while process_row
unpacks its result into four variables; consequently unpacking raises
ValueError whenever the matcher returns, and process_row raises on
every row — it never produces a tracking record.  Confirmed. -/
theorem c9_three_tuple_unpack_error (reg : Registry) (idx : Nat) (dataset_row : Row) :
    (∀ t, find_best_company_match reg dataset_row = .ok t →
      t.length = 3 ∧ unpack4 t = .error .valueError) ∧
    (process_row reg idx dataset_row = .error .valueError ∨
     process_row reg idx dataset_row = .error .attributeError) := by
  refine ⟨fun t h => ?_, process_row_error reg idx dataset_row⟩
  have hl := find_best_company_match_ok_length reg dataset_row t h
  exact ⟨hl, unpack4_of_length_three t hl⟩

/-- C9 witness: the theorem applied at a concrete registry and row on
which the matcher returns (None, "no_match", 0). -/
theorem c9_three_tuple_unpack_error_witness :
    (([PyVal.data .none, PyVal.str "no_match", PyVal.int 0] : List PyVal).length = 3 ∧
      unpack4 [PyVal.data .none, PyVal.str "no_match", PyVal.int 0] = .error .valueError) ∧
    (process_row regFixC9 0 {} = .error .valueError ∨
     process_row regFixC9 0 {} = .error .attributeError) :=
  ⟨(c9_three_tuple_unpack_error regFixC9 0 {}).1 _ (by decide),
   (c9_three_tuple_unpack_error regFixC9 0 {}).2⟩

/-- C10: when the primary-name tier finds exactly one top-scored
candidate but the detail lookup for it returns no data,
find_best_company_match returns company_data = None together with
match_type "best_name_match" and the candidate's positive score — so
absent resolved fields co-occur with a non-no_match tag and a nonzero
confidence.  Confirmed. -/
theorem c10_best_match_with_missing_details (reg : Registry) (dataset_row : Row)
    (name : String) (sr : Option Payload) (mc best : Nat) (only : SearchItem)
    (hcrn : crnLookup reg dataset_row = none)
    (hname : extract_company_name_from_row dataset_row = some name)
    (hsearch : reg.searchByName name = (sr, mc))
    (hmc : 0 < mc)
    (hfm : (find_match sr name).1 = none)
    (hbest : bestOf dataset_row (itemsOf sr) = (best, [only]))
    (hget : reg.getCompany only.company_number = none) :
    find_best_company_match reg dataset_row =
      .ok [.data .none, .str "best_name_match", .int best] ∧ 1 ≤ best := by
  constructor
  · simp only [find_best_company_match, hcrn, hname, hsearch, hfm, hbest, hget, if_pos hmc]
  · have hpos := bestOf_pos dataset_row (itemsOf sr) (by rw [hbest]; simp)
    rw [hbest] at hpos
    exact hpos

/-- C10 witness: the theorem applied at concrete fixtures where the
sole candidate scores 2 and its detail lookup fails. -/
theorem c10_best_match_with_missing_details_witness :
    find_best_company_match regFixC10 rowFixC10 =
      .ok [.data .none, .str "best_name_match", .int 2] ∧ (1:Nat) ≤ 2 :=
  c10_best_match_with_missing_details regFixC10 rowFixC10 "Alpha"
    (some ⟨some [itemFixC10]⟩) 1 2 itemFixC10
    (by decide) (by decide) (by decide) (by decide) (by decide) (by decide) (by decide)
